import Mathlib

/-!
Verification of the goapps-costing master-data service core: value objects,
entities, list filters, command/query handlers and the error-to-envelope
translation, for the UOM and Parameter aggregates.

Machine integers are modelled as `Int` (Go `int`/`int64`) with the `int32`
cast made explicit where the source performs one; wall-clock time is an
explicit `now : Nat` argument threaded to the constructors and mutators that
call `time.Now()`; Go float64 values carry no claim-relevant NaN behaviour
here and are modelled as `ℚ`; fallible Go functions returning `error` become
`Except`-valued functions, and Go pointer-receiver mutators returning `error`
become state-passing functions returning the (possibly unchanged) state
together with an `Option` error, so that an early `return err` leaves the
receiver untouched exactly as in the source.
-/

deriving instance DecidableEq for Except

namespace Costing

/-- character test for the class [A-Z]. -/
def isUpperAZ (c : Char) : Bool :=
  decide ('A' ≤ c) && decide (c ≤ 'Z')

/-- character test for the tail class [A-Z0-9_]. -/
def isCodeTailChar (c : Char) : Bool :=
  isUpperAZ c || (decide ('0' ≤ c) && decide (c ≤ '9')) || decide (c = '_')

/-- operational rendering of the anchored regular expression
pattern [A-Z][A-Z0-9_]\x7b0,maxTail\x7d used by `value_object.go` for both
entities: a first character in [A-Z] followed by at most `maxTail`
characters in [A-Z0-9_], consuming the whole string. -/
def codeMatches (maxTail : Nat) (s : String) : Bool :=
  match s.data with
  | [] => false
  | c :: rest => isUpperAZ c && decide (rest.length ≤ maxTail) && rest.all isCodeTailChar

/-- declarative, position-indexed reading of the same regular-expression
language, stated independently of the matcher: the string is non-empty, has
at most `maxLen` characters, its character at position 0 is in [A-Z] and
every later character is in [A-Z0-9_]. Used as the spec side of claim C6. -/
def codeSpec (maxLen : Nat) (s : String) : Prop :=
  1 ≤ s.data.length ∧ s.data.length ≤ maxLen ∧
  ∀ i : Fin s.data.length,
    if i.val = 0 then isUpperAZ (s.data.get i) = true
    else isCodeTailChar (s.data.get i) = true

/-- wire response envelope `pb.BaseResponse` (status metadata only; the
`validation_errors` list is populated by the external schema validator, not
by the error translator under verification). -/
structure BaseResponse where
  statusCode : String
  isSuccess : Bool
  message : String
deriving DecidableEq

/-- Go cast `int32(x)`: two's-complement wrap-around of an `int64` value. -/
def toInt32 (x : Int) : Int :=
  (x + 2 ^ 31) % 2 ^ 32 - 2 ^ 31

/-- total-pages computation of the gRPC list handlers
(`UOMHandler.ListUOMs` lines 106-109 and `ParameterHandler.ListParameters`
lines 121-124): `totalPages := int32(result.Total) / req.PageSize` followed
by an increment when the remainder is positive. Go `/` and `%` truncate
toward zero (`Int.tdiv` / `Int.tmod`); a zero `req.PageSize` makes the
division panic at run time, modelled as `none`. -/
def listTotalPages (total pageSize : Int) : Option Int :=
  if pageSize = 0 then none
  else if Int.tmod (toInt32 total) pageSize > 0 then
    some (Int.tdiv (toInt32 total) pageSize + 1)
  else some (Int.tdiv (toInt32 total) pageSize)

/-- mathematical ceiling division for a nonzero divisor,
via the identity ceil(a/b) = -floor(-a/b). -/
def ceilDiv (a b : Int) : Int :=
  -(Int.fdiv (-a) b)

namespace uom

/-- domain error values of package `uom` plus an `other` constructor for
errors originating outside the domain (storage/transport failures carrying
their own text), so that the translator's default branch is exercised over
an open-ended error set as in Go. -/
inductive Err where
  | notFound
  | alreadyExists
  | emptyName
  | emptyCreatedBy
  | invalidUOMCode
  | invalidCategory
  | other (msg : String)
deriving DecidableEq

/-- Go `err.Error()` text of each `uom` error value. -/
def Err.message : Err → String
  | .notFound => "uom not found"
  | .alreadyExists => "uom already exists"
  | .emptyName => "uom name cannot be empty"
  | .emptyCreatedBy => "created_by cannot be empty"
  | .invalidUOMCode => "invalid uom code format"
  | .invalidCategory => "invalid uom category"
  | .other m => m

/-- value object `UOMCode` (Go: `type UOMCode string`); `str` is its
`String()` accessor. -/
structure UOMCode where
  str : String
deriving DecidableEq

/-- matcher compiled from `uomCodePattern` in `uom/value_object.go`
(tail of up to 19 characters, total length 20). -/
def uomCodeMatches (s : String) : Bool :=
  codeMatches 19 s

/-- constructor `NewUOMCode` from `uom/value_object.go`. -/
def NewUOMCode (s : String) : Except Err UOMCode :=
  if uomCodeMatches s then .ok ⟨s⟩ else .error .invalidUOMCode

/-- Go `type Category string`. -/
abbrev Category := String

def CategoryWeight : Category := "WEIGHT"
def CategoryVolume : Category := "VOLUME"
def CategoryQuantity : Category := "QUANTITY"
def CategoryLength : Category := "LENGTH"

/-- constructor `NewCategory` from `uom/value_object.go`: exact-match switch
over the four enumerated literals. -/
def NewCategory (s : String) : Except Err Category :=
  if s = CategoryWeight ∨ s = CategoryVolume ∨ s = CategoryQuantity ∨ s = CategoryLength
  then .ok s else .error .invalidCategory

/-- aggregate root `UOM` from `uom/entity.go`; timestamps are abstract `Nat`
instants. -/
structure UOM where
  code : UOMCode
  name : String
  category : Category
  isBaseUOM : Bool
  createdAt : Nat
  createdBy : String
  updatedAt : Option Nat
  updatedBy : Option String
deriving DecidableEq

/-- constructor `NewUOM`: validates name and createdBy, stamps `createdAt`
with the current instant, defaults `isBaseUOM` to false. -/
def NewUOM (code : UOMCode) (name : String) (category : Category)
    (createdBy : String) (now : Nat) : Except Err UOM :=
  if name = "" then .error .emptyName
  else if createdBy = "" then .error .emptyCreatedBy
  else .ok {
    code := code
    name := name
    category := category
    isBaseUOM := false
    createdAt := now
    createdBy := createdBy
    updatedAt := none
    updatedBy := none }

/-- trusted reconstruction path `Reconstitute` (no validation). -/
def Reconstitute (code : UOMCode) (name : String) (category : Category)
    (isBaseUOM : Bool) (createdAt : Nat) (createdBy : String)
    (updatedAt : Option Nat) (updatedBy : Option String) : UOM :=
  { code := code, name := name, category := category, isBaseUOM := isBaseUOM
    createdAt := createdAt, createdBy := createdBy
    updatedAt := updatedAt, updatedBy := updatedBy }

/-- mutator `SetAsBaseUOM`: sets the flag and nothing else. -/
def UOM.SetAsBaseUOM (u : UOM) : UOM :=
  { u with isBaseUOM := true }

/-- mutator `Update` from `uom/entity.go`: validates, then assigns name,
category and the base flag and stamps the update audit; an early error
return leaves the receiver unchanged. -/
def UOM.Update (u : UOM) (name : String) (category : Category)
    (isBaseUOM : Bool) (updatedBy : String) (now : Nat) : UOM × Option Err :=
  if name = "" then (u, some .emptyName)
  else if updatedBy = "" then (u, some .emptyCreatedBy)
  else ({ u with
      name := name
      category := category
      isBaseUOM := isBaseUOM
      updatedAt := some now
      updatedBy := some updatedBy }, none)

/-- pagination filter from `uom/repository.go`. -/
structure ListFilter where
  category : Option Category := none
  page : Int
  pageSize : Int

/-- method `Offset`: floors the page to 1, then multiplies by the raw
(unclamped) page size. -/
def ListFilter.Offset (f : ListFilter) : Int :=
  let page := if f.page ≤ 0 then 1 else f.page
  (page - 1) * f.pageSize

/-- method `Limit`: clamps the page size into [1,100] with default 10. -/
def ListFilter.Limit (f : ListFilter) : Int :=
  if f.pageSize ≤ 0 then 10
  else if f.pageSize > 100 then 100
  else f.pageSize

/-- error translator `errorToBaseResponse` from `uom_handler.go`: a switch
on `errors.Is` against the domain error values, defaulting to a generic
internal-error envelope. -/
def errorToBaseResponse (err : Err) : BaseResponse :=
  if err = .notFound then
    { statusCode := "404", isSuccess := false, message := err.message }
  else if err = .alreadyExists then
    { statusCode := "409", isSuccess := false, message := err.message }
  else if err = .invalidUOMCode ∨ err = .invalidCategory ∨ err = .emptyName then
    { statusCode := "400", isSuccess := false, message := err.message }
  else
    { statusCode := "500", isSuccess := false, message := "Internal server error" }

end uom

namespace param

/-- domain error values of package `parameter`, plus `other` for
storage/transport failures (see `uom.Err`). -/
inductive Err where
  | notFound
  | alreadyExists
  | emptyName
  | emptyCreatedBy
  | invalidCode
  | invalidCategory
  | invalidDataType
  | minGreaterThanMax
  | dropdownNoOptions
  | other (msg : String)
deriving DecidableEq

/-- Go `err.Error()` text of each `parameter` error value. -/
def Err.message : Err → String
  | .notFound => "parameter not found"
  | .alreadyExists => "parameter already exists"
  | .emptyName => "parameter name cannot be empty"
  | .emptyCreatedBy => "created_by cannot be empty"
  | .invalidCode => "invalid parameter code format"
  | .invalidCategory => "invalid parameter category"
  | .invalidDataType => "invalid parameter data type"
  | .minGreaterThanMax => "min_value cannot be greater than max_value"
  | .dropdownNoOptions => "dropdown type requires allowed_values"
  | .other m => m

/-- value object `Code` (Go: `type Code string`); `str` is its `String()`
accessor. -/
structure Code where
  str : String
deriving DecidableEq

/-- matcher compiled from `parameterCodePattern` in
`parameter/value_object.go` (tail of up to 49 characters, total length 50). -/
def parameterCodeMatches (s : String) : Bool :=
  codeMatches 49 s

/-- constructor `NewParameterCode` from `parameter/value_object.go`. -/
def NewParameterCode (s : String) : Except Err Code :=
  if parameterCodeMatches s then .ok ⟨s⟩ else .error .invalidCode

/-- Go `type Category string`. -/
abbrev Category := String

def CategoryMachine : Category := "MACHINE"
def CategoryMaterial : Category := "MATERIAL"
def CategoryQuality : Category := "QUALITY"
def CategoryOutput : Category := "OUTPUT"
def CategoryProcess : Category := "PROCESS"

/-- constructor `NewCategory` from `parameter/value_object.go`. -/
def NewCategory (s : String) : Except Err Category :=
  if s = CategoryMachine ∨ s = CategoryMaterial ∨ s = CategoryQuality ∨
     s = CategoryOutput ∨ s = CategoryProcess
  then .ok s else .error .invalidCategory

/-- Go `type DataType string`. -/
abbrev DataType := String

def DataTypeNumeric : DataType := "NUMERIC"
def DataTypeText : DataType := "TEXT"
def DataTypeBoolean : DataType := "BOOLEAN"
def DataTypeDropdown : DataType := "DROPDOWN"

/-- constructor `NewDataType` from `parameter/value_object.go`. -/
def NewDataType (s : String) : Except Err DataType :=
  if s = DataTypeNumeric ∨ s = DataTypeText ∨ s = DataTypeBoolean ∨ s = DataTypeDropdown
  then .ok s else .error .invalidDataType

/-- aggregate root `Parameter` from `parameter/entity.go`; Go `*float64`
bounds become `Option ℚ`. -/
structure Parameter where
  code : Code
  name : String
  category : Category
  dataType : DataType
  uomRef : Option String
  minValue : Option ℚ
  maxValue : Option ℚ
  allowedValues : List String
  isMandatory : Bool
  description : Option String
  isActive : Bool
  createdAt : Nat
  createdBy : String
  updatedAt : Option Nat
  updatedBy : Option String
deriving DecidableEq

/-- constructor `NewParameter`: validates name and createdBy, defaults
`isActive` to true and `isMandatory` to false, stamps `createdAt`. -/
def NewParameter (code : Code) (name : String) (category : Category)
    (dataType : DataType) (createdBy : String) (now : Nat) : Except Err Parameter :=
  if name = "" then .error .emptyName
  else if createdBy = "" then .error .emptyCreatedBy
  else .ok {
    code := code
    name := name
    category := category
    dataType := dataType
    uomRef := none
    minValue := none
    maxValue := none
    allowedValues := []
    isMandatory := false
    description := none
    isActive := true
    createdAt := now
    createdBy := createdBy
    updatedAt := none
    updatedBy := none }

/-- trusted reconstruction path `Reconstitute` (no validation). -/
def Reconstitute (code : Code) (name : String) (category : Category)
    (dataType : DataType) (uomRef : Option String) (minValue maxValue : Option ℚ)
    (allowedValues : List String) (isMandatory : Bool) (description : Option String)
    (isActive : Bool) (createdAt : Nat) (createdBy : String)
    (updatedAt : Option Nat) (updatedBy : Option String) : Parameter :=
  { code := code, name := name, category := category, dataType := dataType
    uomRef := uomRef, minValue := minValue, maxValue := maxValue
    allowedValues := allowedValues, isMandatory := isMandatory
    description := description, isActive := isActive
    createdAt := createdAt, createdBy := createdBy
    updatedAt := updatedAt, updatedBy := updatedBy }

/-- mutator `SetNumericConstraints`: fails (receiver untouched) when both
bounds are present and min exceeds max, otherwise assigns both bounds. -/
def Parameter.SetNumericConstraints (p : Parameter) (minVal maxVal : Option ℚ) :
    Parameter × Option Err :=
  match minVal, maxVal with
  | some a, some b =>
    if a > b then (p, some .minGreaterThanMax)
    else ({ p with minValue := minVal, maxValue := maxVal }, none)
  | _, _ => ({ p with minValue := minVal, maxValue := maxVal }, none)

/-- mutator `SetAllowedValues`: fails (receiver untouched) when the
parameter is DROPDOWN-typed and the list is empty, otherwise assigns it. -/
def Parameter.SetAllowedValues (p : Parameter) (values : List String) :
    Parameter × Option Err :=
  if p.dataType = DataTypeDropdown ∧ values.length = 0 then
    (p, some .dropdownNoOptions)
  else ({ p with allowedValues := values }, none)

/-- mutator `SetUOM`. -/
def Parameter.SetUOM (p : Parameter) (u : Option String) : Parameter :=
  { p with uomRef := u }

/-- mutator `SetDescription`. -/
def Parameter.SetDescription (p : Parameter) (d : Option String) : Parameter :=
  { p with description := d }

/-- mutator `SetMandatory`. -/
def Parameter.SetMandatory (p : Parameter) (m : Bool) : Parameter :=
  { p with isMandatory := m }

/-- mutator `Activate`. -/
def Parameter.Activate (p : Parameter) : Parameter :=
  { p with isActive := true }

/-- mutator `Deactivate`. -/
def Parameter.Deactivate (p : Parameter) : Parameter :=
  { p with isActive := false }

/-- mutator `Update` from `parameter/entity.go`: validates, then assigns
name, category and data type and stamps the update audit; an early error
return leaves the receiver unchanged. -/
def Parameter.Update (p : Parameter) (name : String) (category : Category)
    (dataType : DataType) (updatedBy : String) (now : Nat) : Parameter × Option Err :=
  if name = "" then (p, some .emptyName)
  else if updatedBy = "" then (p, some .emptyCreatedBy)
  else ({ p with
      name := name
      category := category
      dataType := dataType
      updatedAt := some now
      updatedBy := some updatedBy }, none)

/-- pagination filter from `parameter/repository.go` (adds `isActive`). -/
structure ListFilter where
  category : Option Category := none
  isActive : Option Bool := none
  page : Int
  pageSize : Int

/-- method `Offset`: identical to the UOM filter's. -/
def ListFilter.Offset (f : ListFilter) : Int :=
  let page := if f.page ≤ 0 then 1 else f.page
  (page - 1) * f.pageSize

/-- method `Limit`: identical to the UOM filter's. -/
def ListFilter.Limit (f : ListFilter) : Int :=
  if f.pageSize ≤ 0 then 10
  else if f.pageSize > 100 then 100
  else f.pageSize

/-- error translator `paramErrorToBaseResponse` from the parameter gRPC
handler: same shape as the UOM one with six bad-request error values. -/
def paramErrorToBaseResponse (err : Err) : BaseResponse :=
  if err = .notFound then
    { statusCode := "404", isSuccess := false, message := err.message }
  else if err = .alreadyExists then
    { statusCode := "409", isSuccess := false, message := err.message }
  else if err = .invalidCode ∨ err = .invalidCategory ∨ err = .invalidDataType ∨
          err = .emptyName ∨ err = .minGreaterThanMax ∨ err = .dropdownNoOptions then
    { statusCode := "400", isSuccess := false, message := err.message }
  else
    { statusCode := "500", isSuccess := false, message := "Internal server error" }

end param

/-- observable repository invocations, recorded by the handler embeddings in
call order so that claims about operations never being reached are statable. -/
inductive RepoCall where
  | existsByCode (code : String)
  | create
  | getByCode (code : String)
deriving DecidableEq

namespace uom

/-- behaviour of a `uom.Repository` implementation, as response oracles for
the operations the Create and Get handlers invoke (the store is an external
collaborator; any behaviour is allowed). -/
structure Repo where
  existsByCode : UOMCode → Except Err Bool
  create : UOM → Option Err
  getByCode : UOMCode → Except Err UOM

/-- command shape `uom.CreateCommand` from `application/uom/commands.go`. -/
structure CreateCommand where
  uomCode : String
  uomName : String
  category : String
  isBaseUOM : Bool
  createdBy : String

/-- embedding of `CreateHandler.Handle` from `application/uom/commands.go`,
returning the result together with the trace of repository calls. -/
def CreateHandle (repo : Repo) (cmd : CreateCommand) (now : Nat) :
    Except Err UOM × List RepoCall :=
  match NewUOMCode cmd.uomCode with
  | .error e => (.error e, [])
  | .ok code =>
    match NewCategory cmd.category with
    | .error e => (.error e, [])
    | .ok category =>
      match repo.existsByCode code with
      | .error e => (.error e, [.existsByCode code.str])
      | .ok true => (.error .alreadyExists, [.existsByCode code.str])
      | .ok false =>
        match NewUOM code cmd.uomName category cmd.createdBy now with
        | .error e => (.error e, [.existsByCode code.str])
        | .ok entity0 =>
          match repo.create (if cmd.isBaseUOM then entity0.SetAsBaseUOM else entity0) with
          | some e => (.error e, [.existsByCode code.str, .create])
          | none =>
            (.ok (if cmd.isBaseUOM then entity0.SetAsBaseUOM else entity0),
              [.existsByCode code.str, .create])

/-- embedding of `GetHandler.Handle` from `application/uom/queries.go`. -/
def GetHandle (repo : Repo) (rawCode : String) :
    Except Err UOM × List RepoCall :=
  match NewUOMCode rawCode with
  | .error e => (.error e, [])
  | .ok code =>
    match repo.getByCode code with
    | .error e => (.error e, [.getByCode code.str])
    | .ok u => (.ok u, [.getByCode code.str])

end uom

namespace param

/-- behaviour of a `parameter.Repository` implementation (see `uom.Repo`). -/
structure Repo where
  existsByCode : Code → Except Err Bool
  create : Parameter → Option Err
  getByCode : Code → Except Err Parameter

/-- command shape `parameter.CreateCommand` from
`application/parameter/commands.go`. -/
structure CreateCommand where
  parameterCode : String
  parameterName : String
  category : String
  dataType : String
  uomRef : Option String
  minValue : Option ℚ
  maxValue : Option ℚ
  allowedValues : List String
  isMandatory : Bool
  description : Option String
  createdBy : String

/-- embedding of `CreateHandler.Handle` from
`application/parameter/commands.go`: value objects, duplicate check, entity
construction, optional setters, numeric constraints, allowed values, then
persistence, short-circuiting on first failure. -/
def CreateHandle (repo : Repo) (cmd : CreateCommand) (now : Nat) :
    Except Err Parameter × List RepoCall :=
  match NewParameterCode cmd.parameterCode with
  | .error e => (.error e, [])
  | .ok code =>
    match NewCategory cmd.category with
    | .error e => (.error e, [])
    | .ok category =>
      match NewDataType cmd.dataType with
      | .error e => (.error e, [])
      | .ok dataType =>
        match repo.existsByCode code with
        | .error e => (.error e, [.existsByCode code.str])
        | .ok true => (.error .alreadyExists, [.existsByCode code.str])
        | .ok false =>
          match NewParameter code cmd.parameterName category dataType cmd.createdBy now with
          | .error e => (.error e, [.existsByCode code.str])
          | .ok entity0 =>
            match
              (((entity0.SetUOM cmd.uomRef).SetDescription cmd.description).SetMandatory
                cmd.isMandatory).SetNumericConstraints cmd.minValue cmd.maxValue with
            | (_, some e) => (.error e, [.existsByCode code.str])
            | (entity2, none) =>
              match entity2.SetAllowedValues cmd.allowedValues with
              | (_, some e) => (.error e, [.existsByCode code.str])
              | (entity3, none) =>
                match repo.create entity3 with
                | some e => (.error e, [.existsByCode code.str, .create])
                | none => (.ok entity3, [.existsByCode code.str, .create])

/-- embedding of `GetHandler.Handle` from `application/parameter/queries.go`. -/
def GetHandle (repo : Repo) (rawCode : String) :
    Except Err Parameter × List RepoCall :=
  match NewParameterCode rawCode with
  | .error e => (.error e, [])
  | .ok code =>
    match repo.getByCode code with
    | .error e => (.error e, [.getByCode code.str])
    | .ok p => (.ok p, [.getByCode code.str])

end param

/-! Helper lemmas (shared; not claim theorems). -/

/-- ceiling-division characterization of euclidean division of a negated
nonnegative dividend by a positive divisor. -/
theorem neg_ediv_of_nonneg (a : Int) {b : Int} (ha : 0 ≤ a) (hb : 0 < b) :
    (-a) / b = if a % b = 0 then -(a / b) else -(a / b) - 1 := by
  have hq := Int.ediv_add_emod a b
  have hr0 := Int.emod_nonneg a (by omega : b ≠ 0)
  have hrb := Int.emod_lt_of_pos a hb
  by_cases hr : a % b = 0
  · rw [if_pos hr]
    refine ((@Int.ediv_emod_unique (-a) b 0 (-(a / b)) hb).mpr ⟨?_, le_refl 0, hb⟩).1
    rw [Int.mul_neg]
    set t := b * (a / b) with ht
    set r := a % b with hrr
    omega
  · rw [if_neg hr]
    refine ((@Int.ediv_emod_unique (-a) b (b - a % b) (-(a / b) - 1) hb).mpr
      ⟨?_, by omega, by omega⟩).1
    rw [Int.mul_sub, Int.mul_neg, Int.mul_one]
    set t := b * (a / b) with ht
    set r := a % b with hrr
    omega

/-- Claim C1 (counterexample): the claim asserts
`totalPages = ceil(totalCount / pageSize)` for every request `pageSize`,
including 0 and values outside [1,100]. At `pageSize = 0` the handlers'
computation `int32(total) / pageSize` is an integer division by zero (a Go
run-time panic, modelled as `none`), and at the out-of-range
`pageSize = -3` with `totalCount = 5` the code yields 0 while
`ceil(5 / -3) = -1`. -/
theorem c1_list_total_pages_counterexample :
    listTotalPages 15 0 = none ∧
    listTotalPages 5 (-3) = some 0 ∧
    ceilDiv 5 (-3) = -1 ∧
    listTotalPages 5 (-3) ≠ some (ceilDiv 5 (-3)) := by
  decide

/-- Claim C1 (amended): for every repository `totalCount` with
`0 ≤ totalCount < 2^31` (no `int32` overflow) and every request
`pageSize ≥ 1`, both list handlers' pagination metadata total-page count
equals `ceil(totalCount / pageSize)`; for `pageSize = 0` the computation
divides by zero, and for negative `pageSize` the formula does not hold. -/
theorem c1_list_total_pages_ceil (total pageSize : Int) (h1 : 1 ≤ pageSize)
    (h2 : 0 ≤ total) (h3 : total < 2 ^ 31) :
    listTotalPages total pageSize = some (ceilDiv total pageSize) := by
  have hps : pageSize ≠ 0 := by omega
  have ht32 : toInt32 total = total := by
    unfold toInt32
    rw [Int.emod_eq_of_lt (by omega) (by omega)]
    omega
  unfold listTotalPages ceilDiv
  rw [if_neg hps, ht32, Int.tdiv_eq_ediv h2 (by omega), Int.tmod_eq_emod h2 (by omega),
      Int.fdiv_eq_ediv _ (by omega), neg_ediv_of_nonneg total h2 (by omega)]
  have hr0 := Int.emod_nonneg total hps
  by_cases hr : total % pageSize = 0
  · rw [if_neg (by omega : ¬total % pageSize > 0), if_pos hr, Int.neg_neg]
  · rw [if_pos (by omega : total % pageSize > 0), if_neg hr]
    congr 1
    omega

/-- Claim C1 (witness): the amended theorem applied at
`totalCount = 15`, `pageSize = 10`. -/
theorem c1_list_total_pages_ceil_witness :
    listTotalPages 15 10 = some (ceilDiv 15 10) ∧ ceilDiv 15 10 = 2 :=
  ⟨c1_list_total_pages_ceil 15 10 (by norm_num) (by norm_num) (by norm_num), by decide⟩

/-- Claim C3 (counterexample): the claim computes the offset from the
clamped effective page size (default 10 for `pageSize = 0`), so at
`page = 2, pageSize = 0` it expects offset `(2-1) * 10 = 10`; the code's
`Offset()` multiplies by the raw `PageSize` and yields 0. -/
theorem c3_list_filter_counterexample :
    uom.ListFilter.Offset { page := 2, pageSize := 0 } = 0 ∧
    uom.ListFilter.Limit { page := 2, pageSize := 0 } = 10 ∧
    uom.ListFilter.Offset { page := 2, pageSize := 0 } ≠
      (2 - 1) * uom.ListFilter.Limit { page := 2, pageSize := 0 } := by
  decide

/-- Claim C3 (amended): for every ListFilter (UOM and Parameter), the
effective limit is 10 when `pageSize ≤ 0`, 100 when `pageSize > 100`, and
`pageSize` otherwise; the offset equals `(page - 1) * pageSize` where
`page` is floored to 1 when `page ≤ 0` and `pageSize` is the raw request
page size, not the clamped effective one. -/
theorem c3_list_filter_pagination (f : uom.ListFilter) (g : param.ListFilter) :
    (f.pageSize ≤ 0 → f.Limit = 10) ∧
    (f.pageSize > 100 → f.Limit = 100) ∧
    (1 ≤ f.pageSize → f.pageSize ≤ 100 → f.Limit = f.pageSize) ∧
    (f.page ≤ 0 → f.Offset = 0) ∧
    (1 ≤ f.page → f.Offset = (f.page - 1) * f.pageSize) ∧
    (g.pageSize ≤ 0 → g.Limit = 10) ∧
    (g.pageSize > 100 → g.Limit = 100) ∧
    (1 ≤ g.pageSize → g.pageSize ≤ 100 → g.Limit = g.pageSize) ∧
    (g.page ≤ 0 → g.Offset = 0) ∧
    (1 ≤ g.page → g.Offset = (g.page - 1) * g.pageSize) := by
  unfold uom.ListFilter.Limit uom.ListFilter.Offset
    param.ListFilter.Limit param.ListFilter.Offset
  refine ⟨?_, ?_, ?_, ?_, ?_, ?_, ?_, ?_, ?_, ?_⟩ <;> intros <;>
    repeat' split <;> first | rfl | omega | (simp; omega) | simp_all

/-- Claim C3 (witness): the amended theorem applied at concrete filters
`page = 2, pageSize = 5` and `page = 0, pageSize = 200`. -/
theorem c3_list_filter_pagination_witness :
    uom.ListFilter.Limit { page := 2, pageSize := 5 } = 5 ∧
    uom.ListFilter.Offset { page := 2, pageSize := 5 } = (2 - 1) * 5 ∧
    param.ListFilter.Limit { page := 0, pageSize := 200 } = 100 ∧
    param.ListFilter.Offset { page := 0, pageSize := 200 } = 0 := by
  obtain ⟨-, -, h3, -, h5, -, h7, -, h9, -⟩ :=
    c3_list_filter_pagination { page := 2, pageSize := 5 } { page := 0, pageSize := 200 }
  exact ⟨h3 (by norm_num) (by norm_num), h5 (by norm_num),
    h7 (by norm_num), h9 (by norm_num)⟩

/-- Claim C2 (counterexample): the claim asserts that every non-construction
mutation, `SetAsBaseUOM` among them, stamps `updatedAt = now()` and
`updatedBy = caller` on success. `SetAsBaseUOM` takes no caller at all and
touches only the flag: on a stored UOM with empty audit it succeeds (the
flag flips to true) yet both audit fields remain absent. -/
theorem c2_mutation_audit_counterexample :
    ((uom.Reconstitute ⟨"KG"⟩ "Kilogram" uom.CategoryWeight false 0 "admin"
        none none).SetAsBaseUOM).isBaseUOM = true ∧
    ((uom.Reconstitute ⟨"KG"⟩ "Kilogram" uom.CategoryWeight false 0 "admin"
        none none).SetAsBaseUOM).updatedAt = none ∧
    ((uom.Reconstitute ⟨"KG"⟩ "Kilogram" uom.CategoryWeight false 0 "admin"
        none none).SetAsBaseUOM).updatedBy = none := by
  decide

/-- Claim C2 (amended): for both entities only the `Update` mutation stamps
`updatedAt = now()` and `updatedBy = caller` on success; the remaining
mutation methods (`SetAsBaseUOM`, `Activate`, `Deactivate`, `SetUOM`,
`SetDescription`, `SetMandatory`, `SetNumericConstraints`,
`SetAllowedValues`) leave both audit fields unchanged. -/
theorem c2_mutation_audit_stamp :
    (∀ (u : uom.UOM) (name cat : String) (base : Bool) (actor : String)
        (now : Nat) (u' : uom.UOM),
        uom.UOM.Update u name cat base actor now = (u', none) →
        u'.updatedAt = some now ∧ u'.updatedBy = some actor) ∧
    (∀ u : uom.UOM,
        u.SetAsBaseUOM.updatedAt = u.updatedAt ∧ u.SetAsBaseUOM.updatedBy = u.updatedBy) ∧
    (∀ (p : param.Parameter) (name cat dt actor : String) (now : Nat)
        (p' : param.Parameter),
        param.Parameter.Update p name cat dt actor now = (p', none) →
        p'.updatedAt = some now ∧ p'.updatedBy = some actor) ∧
    (∀ p : param.Parameter,
        (p.Activate.updatedAt = p.updatedAt ∧ p.Activate.updatedBy = p.updatedBy) ∧
        (p.Deactivate.updatedAt = p.updatedAt ∧ p.Deactivate.updatedBy = p.updatedBy) ∧
        (∀ m, (p.SetMandatory m).updatedAt = p.updatedAt ∧
          (p.SetMandatory m).updatedBy = p.updatedBy) ∧
        (∀ u, (p.SetUOM u).updatedAt = p.updatedAt ∧ (p.SetUOM u).updatedBy = p.updatedBy) ∧
        (∀ d, (p.SetDescription d).updatedAt = p.updatedAt ∧
          (p.SetDescription d).updatedBy = p.updatedBy) ∧
        (∀ a b, (p.SetNumericConstraints a b).1.updatedAt = p.updatedAt ∧
          (p.SetNumericConstraints a b).1.updatedBy = p.updatedBy) ∧
        (∀ vs, (p.SetAllowedValues vs).1.updatedAt = p.updatedAt ∧
          (p.SetAllowedValues vs).1.updatedBy = p.updatedBy)) := by
  refine ⟨?_, ?_, ?_, ?_⟩
  · intro u name cat base actor now u' h
    unfold uom.UOM.Update at h
    split at h
    · cases h
    · split at h
      · cases h
      · cases h
        exact ⟨rfl, rfl⟩
  · intro u
    exact ⟨rfl, rfl⟩
  · intro p name cat dt actor now p' h
    unfold param.Parameter.Update at h
    split at h
    · cases h
    · split at h
      · cases h
      · cases h
        exact ⟨rfl, rfl⟩
  · intro p
    refine ⟨⟨rfl, rfl⟩, ⟨rfl, rfl⟩, fun m => ⟨rfl, rfl⟩, fun u => ⟨rfl, rfl⟩,
      fun d => ⟨rfl, rfl⟩, fun a b => ?_, fun vs => ?_⟩
    · unfold param.Parameter.SetNumericConstraints
      cases a <;> cases b <;> refine ⟨?_, ?_⟩ <;> (repeat' split) <;>
        first | rfl | simp_all
    · unfold param.Parameter.SetAllowedValues
      refine ⟨?_, ?_⟩ <;> split <;> rfl

/-- Claim C2 (witness): the amended theorem's `UOM.Update` part applied at a
concrete entity, instant 7 and caller "editor". -/
theorem c2_mutation_audit_stamp_witness :
    (uom.Reconstitute ⟨"KG"⟩ "Kilo" uom.CategoryWeight true 0 "admin"
      (some 7) (some "editor")).updatedAt = some 7 ∧
    (uom.Reconstitute ⟨"KG"⟩ "Kilo" uom.CategoryWeight true 0 "admin"
      (some 7) (some "editor")).updatedBy = some "editor" :=
  c2_mutation_audit_stamp.1
    (uom.Reconstitute ⟨"KG"⟩ "Kilogram" uom.CategoryWeight false 0 "admin" none none)
    "Kilo" uom.CategoryWeight true "editor" 7
    (uom.Reconstitute ⟨"KG"⟩ "Kilo" uom.CategoryWeight true 0 "admin"
      (some 7) (some "editor"))
    (by decide)

/-- Spec-side classification table of §4.5 / claim C4 for UOM errors:
NotFound is "404", AlreadyExists "409", the validation errors "400", and
every other error value "500". Written from the claim's words, to be
compared with the translator embedded from the source. -/
def uomClaimStatus : uom.Err → String
  | .notFound => "404"
  | .alreadyExists => "409"
  | .invalidUOMCode => "400"
  | .invalidCategory => "400"
  | .emptyName => "400"
  | _ => "500"

/-- Spec-side envelope of claim C4 for UOM errors: `is_success` is false,
and the message is the error's own text except in the "500" class, where a
generic string replaces it. -/
def uomClaimEnvelope (e : uom.Err) : BaseResponse :=
  { statusCode := uomClaimStatus e
    isSuccess := false
    message := if uomClaimStatus e = "500" then "Internal server error" else e.message }

/-- Spec-side classification table of §4.5 / claim C4 for Parameter errors. -/
def paramClaimStatus : param.Err → String
  | .notFound => "404"
  | .alreadyExists => "409"
  | .invalidCode => "400"
  | .invalidCategory => "400"
  | .invalidDataType => "400"
  | .emptyName => "400"
  | .minGreaterThanMax => "400"
  | .dropdownNoOptions => "400"
  | _ => "500"

/-- Spec-side envelope of claim C4 for Parameter errors. -/
def paramClaimEnvelope (e : param.Err) : BaseResponse :=
  { statusCode := paramClaimStatus e
    isSuccess := false
    message := if paramClaimStatus e = "500" then "Internal server error" else e.message }

/-- Claim C4 (confirmed): both error translators are total functions that
realize exactly the claim's partition — NotFound to "404", AlreadyExists to
"409", the validation errors to "400", and every other error value
(including `EmptyCreatedBy` and arbitrary storage/transport errors) to
"500" with the message replaced by the generic string rather than the
error's own text; `is_success` is false in every case. -/
theorem c4_error_translation_partition :
    (∀ e : uom.Err, uom.errorToBaseResponse e = uomClaimEnvelope e) ∧
    (∀ e : param.Err, param.paramErrorToBaseResponse e = paramClaimEnvelope e) := by
  constructor
  · intro e
    cases e <;>
      simp [uom.errorToBaseResponse, uomClaimEnvelope, uomClaimStatus, uom.Err.message]
  · intro e
    cases e <;>
      simp [param.paramErrorToBaseResponse, paramClaimEnvelope, paramClaimStatus,
        param.Err.message]

/-- Claim C8 (confirmed): `SetNumericConstraints(min, max)` fails with
`MinGreaterThanMax` exactly when both bounds are present and min > max, in
which case the whole parameter state — its stored `minValue` and `maxValue`
in particular — is returned unchanged; in every other case (either bound
absent, or min ≤ max) it succeeds and stores exactly the two requested
bounds, including clearing them with nil. -/
theorem c8_set_numeric_constraints :
    (∀ (p : param.Parameter) (a b : ℚ),
        (a > b ↔ p.SetNumericConstraints (some a) (some b) = (p, some .minGreaterThanMax)) ∧
        (a ≤ b ↔ (p.SetNumericConstraints (some a) (some b)).2 = none)) ∧
    (∀ (p : param.Parameter) (mb : Option ℚ),
        (p.SetNumericConstraints none mb).2 = none ∧
        (p.SetNumericConstraints none mb).1.minValue = none ∧
        (p.SetNumericConstraints none mb).1.maxValue = mb) ∧
    (∀ (p : param.Parameter) (ma : Option ℚ),
        (p.SetNumericConstraints ma none).2 = none ∧
        (p.SetNumericConstraints ma none).1.minValue = ma ∧
        (p.SetNumericConstraints ma none).1.maxValue = none) ∧
    (∀ (p : param.Parameter) (a b : ℚ), a ≤ b →
        (p.SetNumericConstraints (some a) (some b)).1.minValue = some a ∧
        (p.SetNumericConstraints (some a) (some b)).1.maxValue = some b) := by
  refine ⟨?_, ?_, ?_, ?_⟩
  · intro p a b
    constructor
    · constructor
      · intro h
        simp [param.Parameter.SetNumericConstraints, if_pos h]
      · intro h
        by_contra hab
        simp [param.Parameter.SetNumericConstraints, if_neg hab, Prod.ext_iff] at h
    · constructor
      · intro h
        simp [param.Parameter.SetNumericConstraints, if_neg (not_lt.mpr h)]
      · intro h
        by_contra hab
        simp [param.Parameter.SetNumericConstraints, if_pos (lt_of_not_le hab)] at h
  · intro p mb
    cases mb <;> simp [param.Parameter.SetNumericConstraints]
  · intro p ma
    cases ma <;> simp [param.Parameter.SetNumericConstraints]
  · intro p a b h
    simp [param.Parameter.SetNumericConstraints, if_neg (not_lt.mpr h)]

/-- Claim C8 (witness): spec scenario 3 — `SetNumericConstraints(500, 100)`
on a freshly constructed NUMERIC parameter fails with `MinGreaterThanMax`
and returns the parameter unchanged (min/max still nil/nil). -/
theorem c8_set_numeric_constraints_witness :
    (param.Reconstitute ⟨"RPM"⟩ "Spindle speed" param.CategoryMachine
        param.DataTypeNumeric none none none [] false none true 0 "admin" none
        none).SetNumericConstraints (some 500) (some 100) =
      (param.Reconstitute ⟨"RPM"⟩ "Spindle speed" param.CategoryMachine
        param.DataTypeNumeric none none none [] false none true 0 "admin" none
        none, some .minGreaterThanMax) :=
  ((c8_set_numeric_constraints.1
    (param.Reconstitute ⟨"RPM"⟩ "Spindle speed" param.CategoryMachine
      param.DataTypeNumeric none none none [] false none true 0 "admin" none none)
    500 100).1).mp (by norm_num)

/-- Claim C9 (confirmed): `SetAllowedValues` fails with `DropdownNoOptions`
exactly when the list is empty and the parameter's data type is DROPDOWN
(no other error is ever produced); a call with a non-empty list always
succeeds and stores the list, for every data type. -/
theorem c9_set_allowed_values :
    (∀ (p : param.Parameter) (vs : List String),
        ((p.SetAllowedValues vs).2 = some .dropdownNoOptions ↔
          vs = [] ∧ p.dataType = param.DataTypeDropdown) ∧
        ((p.SetAllowedValues vs).2 = none ∨
          (p.SetAllowedValues vs).2 = some .dropdownNoOptions)) ∧
    (∀ (p : param.Parameter) (v : String) (vs : List String),
        (p.SetAllowedValues (v :: vs)).2 = none ∧
        (p.SetAllowedValues (v :: vs)).1.allowedValues = v :: vs) := by
  constructor
  · intro p vs
    unfold param.Parameter.SetAllowedValues
    constructor
    · split
      · next h =>
        simp only [true_iff]
        exact ⟨List.length_eq_zero.mp h.2, h.1⟩
      · next h =>
        constructor
        · intro hx
          cases hx
        · rintro ⟨h1, h2⟩
          exact absurd ⟨h2, by simp [h1]⟩ h
    · split
      · exact Or.inr rfl
      · exact Or.inl rfl
  · intro p v vs
    unfold param.Parameter.SetAllowedValues
    rw [if_neg (by simp)]
    exact ⟨rfl, rfl⟩

/-- equivalence of the operational matcher with the declarative
position-indexed reading of the code pattern. -/
theorem codeMatches_iff_codeSpec (maxTail : Nat) (s : String) :
    codeMatches maxTail s = true ↔ codeSpec (maxTail + 1) s := by
  unfold codeMatches codeSpec
  cases hd : s.data with
  | nil => simp
  | cons c rest =>
    simp only [Bool.and_eq_true, decide_eq_true_eq, List.all_eq_true, List.length_cons]
    constructor
    · rintro ⟨⟨h1, h2⟩, h3⟩
      refine ⟨by omega, by omega, ?_⟩
      rintro ⟨iv, hiv⟩
      cases iv with
      | zero => simpa using h1
      | succ j =>
        have hj : j < rest.length := by simpa using hiv
        simp only [if_neg (Nat.succ_ne_zero j), List.get_cons_succ]
        exact h3 _ (rest.get_mem _ _)
    · rintro ⟨-, h2, h3⟩
      refine ⟨⟨?_, by omega⟩, ?_⟩
      · have h0 := h3 ⟨0, by simp⟩
        simpa using h0
      · intro x hx
        obtain ⟨⟨j, hj⟩, rfl⟩ := List.mem_iff_get.mp hx
        have hs := h3 ⟨j + 1, by simpa using hj⟩
        simpa using hs

/-- Claim C6 (confirmed): for every string in the language of the anchored
pattern — first character in [A-Z], whole length within 20 (UOM) or 50
(Parameter), all later characters in [A-Z0-9_] — code construction succeeds
and wraps exactly the input string, so `String()` round-trips identically;
every other string makes it fail with the corresponding InvalidCode error
(the disjunction shows no third outcome exists). -/
theorem c6_code_construction_round_trip (s : String) :
    (uom.NewUOMCode s = .ok ⟨s⟩ ↔ codeSpec 20 s) ∧
    (uom.NewUOMCode s = .ok ⟨s⟩ ∨ uom.NewUOMCode s = .error .invalidUOMCode) ∧
    (param.NewParameterCode s = .ok ⟨s⟩ ↔ codeSpec 50 s) ∧
    (param.NewParameterCode s = .ok ⟨s⟩ ∨
      param.NewParameterCode s = .error .invalidCode) := by
  have h20 := codeMatches_iff_codeSpec 19 s
  have h50 := codeMatches_iff_codeSpec 49 s
  norm_num at h20 h50
  unfold uom.NewUOMCode param.NewParameterCode uom.uomCodeMatches param.parameterCodeMatches
  refine ⟨?_, ?_, ?_, ?_⟩
  · split
    · next h => simpa using h20.mp h
    · next h =>
      constructor
      · intro hx
        cases hx
      · intro hx
        exact absurd (h20.mpr hx) (by simpa using h)
  · split
    · exact Or.inl rfl
    · exact Or.inr rfl
  · split
    · next h => simpa using h50.mp h
    · next h =>
      constructor
      · intro hx
        cases hx
      · intro hx
        exact absurd (h50.mpr hx) (by simpa using h)
  · split
    · exact Or.inl rfl
    · exact Or.inr rfl

/-- repository fixture answering "exists" to every UOM code (for duplicate
scenarios). -/
def uomRepoDup : uom.Repo :=
  { existsByCode := fun _ => .ok true
    create := fun _ => none
    getByCode := fun _ => .error .notFound }

/-- repository fixture answering "absent" to every UOM code. -/
def uomRepoFresh : uom.Repo :=
  { existsByCode := fun _ => .ok false
    create := fun _ => none
    getByCode := fun _ => .error .notFound }

/-- repository fixture answering "exists" to every Parameter code. -/
def paramRepoDup : param.Repo :=
  { existsByCode := fun _ => .ok true
    create := fun _ => none
    getByCode := fun _ => .error .notFound }

/-- repository fixture answering "absent" to every Parameter code. -/
def paramRepoFresh : param.Repo :=
  { existsByCode := fun _ => .ok false
    create := fun _ => none
    getByCode := fun _ => .error .notFound }

/-- Claim C5 (confirmed): whenever the raw code and enum fields of a Create
command pass value-object validation and the repository reports the code as
existing, the handler stops with `AlreadyExists`: its repository trace is
exactly the one `ExistsByCode` probe, so `Create` is never invoked — and
since the trace contains no later step, the entity constructor is never
reached either (the result is `AlreadyExists` even for commands whose name
or createdBy would fail entity construction). -/
theorem c5_create_duplicate_short_circuit :
    (∀ (repo : uom.Repo) (cmd : uom.CreateCommand) (now : Nat)
        (code : uom.UOMCode) (cat : uom.Category),
        uom.NewUOMCode cmd.uomCode = .ok code →
        uom.NewCategory cmd.category = .ok cat →
        repo.existsByCode code = .ok true →
        uom.CreateHandle repo cmd now = (.error .alreadyExists, [.existsByCode code.str]) ∧
        .create ∉ (uom.CreateHandle repo cmd now).2) ∧
    (∀ (repo : param.Repo) (cmd : param.CreateCommand) (now : Nat)
        (code : param.Code) (cat : param.Category) (dt : param.DataType),
        param.NewParameterCode cmd.parameterCode = .ok code →
        param.NewCategory cmd.category = .ok cat →
        param.NewDataType cmd.dataType = .ok dt →
        repo.existsByCode code = .ok true →
        param.CreateHandle repo cmd now = (.error .alreadyExists, [.existsByCode code.str]) ∧
        .create ∉ (param.CreateHandle repo cmd now).2) := by
  constructor
  · intro repo cmd now code cat h1 h2 h3
    have hres : uom.CreateHandle repo cmd now =
        (.error .alreadyExists, [.existsByCode code.str]) := by
      unfold uom.CreateHandle
      simp only [h1, h2, h3]
    exact ⟨hres, by rw [hres]; simp⟩
  · intro repo cmd now code cat dt h1 h2 h3 h4
    have hres : param.CreateHandle repo cmd now =
        (.error .alreadyExists, [.existsByCode code.str]) := by
      unfold param.CreateHandle
      simp only [h1, h2, h3, h4]
    exact ⟨hres, by rw [hres]; simp⟩

/-- Claim C5 (witness): the theorem applied to a duplicate-reporting
repository and the command of spec scenario 1 for UOM, and its Parameter
counterpart. -/
theorem c5_create_duplicate_short_circuit_witness :
    uom.CreateHandle uomRepoDup ⟨"KG", "Kilogram", "WEIGHT", false, "admin"⟩ 0 =
      (.error .alreadyExists, [.existsByCode "KG"]) ∧
    param.CreateHandle paramRepoDup
        ⟨"RPM", "Spindle speed", "MACHINE", "NUMERIC", none, none, none, [],
          false, none, "admin"⟩ 0 =
      (.error .alreadyExists, [.existsByCode "RPM"]) :=
  ⟨(c5_create_duplicate_short_circuit.1 uomRepoDup
      ⟨"KG", "Kilogram", "WEIGHT", false, "admin"⟩ 0 ⟨"KG"⟩ "WEIGHT"
      (by decide) (by decide) rfl).1,
   (c5_create_duplicate_short_circuit.2 paramRepoDup
      ⟨"RPM", "Spindle speed", "MACHINE", "NUMERIC", none, none, none, [],
        false, none, "admin"⟩ 0 ⟨"RPM"⟩ "MACHINE" "NUMERIC"
      (by decide) (by decide) (by decide) rfl).1⟩

/-- Claim C7 (confirmed): a Create or Get request whose raw code fails the
code pattern returns `InvalidCode` with an empty repository trace — no
`ExistsByCode`, `GetByCode` or `Create` call is ever issued, for either
entity. -/
theorem c7_malformed_code_short_circuit :
    (∀ (repo : uom.Repo) (cmd : uom.CreateCommand) (now : Nat),
        uom.uomCodeMatches cmd.uomCode = false →
        uom.CreateHandle repo cmd now = (.error .invalidUOMCode, [])) ∧
    (∀ (repo : uom.Repo) (raw : String),
        uom.uomCodeMatches raw = false →
        uom.GetHandle repo raw = (.error .invalidUOMCode, [])) ∧
    (∀ (repo : param.Repo) (cmd : param.CreateCommand) (now : Nat),
        param.parameterCodeMatches cmd.parameterCode = false →
        param.CreateHandle repo cmd now = (.error .invalidCode, [])) ∧
    (∀ (repo : param.Repo) (raw : String),
        param.parameterCodeMatches raw = false →
        param.GetHandle repo raw = (.error .invalidCode, [])) := by
  have hu : ∀ s, uom.uomCodeMatches s = false →
      uom.NewUOMCode s = .error .invalidUOMCode := by
    intro s h
    simp [uom.NewUOMCode, h]
  have hp : ∀ s, param.parameterCodeMatches s = false →
      param.NewParameterCode s = .error .invalidCode := by
    intro s h
    simp [param.NewParameterCode, h]
  refine ⟨?_, ?_, ?_, ?_⟩
  · intro repo cmd now h
    unfold uom.CreateHandle
    simp only [hu _ h]
  · intro repo raw h
    unfold uom.GetHandle
    simp only [hu _ h]
  · intro repo cmd now h
    unfold param.CreateHandle
    simp only [hp _ h]
  · intro repo raw h
    unfold param.GetHandle
    simp only [hp _ h]

/-- Claim C7 (witness): spec scenario 2 — the lowercase code "kg" fails
with `InvalidCode` before any persistence call, on create and on get. -/
theorem c7_malformed_code_short_circuit_witness :
    uom.CreateHandle uomRepoFresh ⟨"kg", "Kilogram", "WEIGHT", false, "admin"⟩ 0 =
      (.error .invalidUOMCode, []) ∧
    uom.GetHandle uomRepoFresh "kg" = (.error .invalidUOMCode, []) :=
  ⟨c7_malformed_code_short_circuit.1 uomRepoFresh
      ⟨"kg", "Kilogram", "WEIGHT", false, "admin"⟩ 0 (by decide),
   c7_malformed_code_short_circuit.2.1 uomRepoFresh "kg" (by decide)⟩

/-- data-type preservation through the optional-field setters of the create
pipeline. -/
theorem setters_preserve_dataType (p : param.Parameter) (u : Option String)
    (d : Option String) (m : Bool) :
    (((p.SetUOM u).SetDescription d).SetMandatory m).dataType = p.dataType :=
  rfl

/-- data-type preservation through `SetNumericConstraints`, on both its
success and failure paths. -/
theorem setNumericConstraints_dataType (p : param.Parameter) (a b : Option ℚ) :
    (p.SetNumericConstraints a b).1.dataType = p.dataType := by
  unfold param.Parameter.SetNumericConstraints
  cases a <;> cases b <;> (repeat' split) <;> first | rfl | simp_all

/-- Claim C10 (counterexample): the claim asserts that every
CreateParameter command with data type DROPDOWN and an empty AllowedValues
list fails with `DropdownNoOptions`; a command whose raw code is also
malformed (lowercase "rpm") fails with `InvalidCode` instead, because code
validation short-circuits first. -/
theorem c10_dropdown_empty_counterexample :
    param.CreateHandle paramRepoFresh
        ⟨"rpm", "Spindle speed", "MACHINE", "DROPDOWN", none, none, none, [],
          false, none, "admin"⟩ 0 =
      (.error .invalidCode, []) ∧
    (Except.error param.Err.invalidCode : Except param.Err param.Parameter) ≠
      .error .dropdownNoOptions := by
  decide

/-- Claim C10 (amended): for every CreateParameter command with data type
DROPDOWN and an empty AllowedValues list, the repository's `Create` is
never invoked and the handler never succeeds — the pipeline always calls
`SetAllowedValues`, so a DROPDOWN parameter with zero allowed values cannot
be persisted through the Create path; the failure is `DropdownNoOptions`
itself whenever the earlier pipeline stages (code/category validation,
duplicate check, entity construction, numeric constraints) all pass. -/
theorem c10_dropdown_empty_create_path :
    (∀ (repo : param.Repo) (cmd : param.CreateCommand) (now : Nat),
        cmd.dataType = param.DataTypeDropdown →
        cmd.allowedValues = [] →
        .create ∉ (param.CreateHandle repo cmd now).2 ∧
        ∀ entity, (param.CreateHandle repo cmd now).1 ≠ .ok entity) ∧
    (∀ (repo : param.Repo) (cmd : param.CreateCommand) (now : Nat)
        (code : param.Code) (cat : param.Category),
        param.NewParameterCode cmd.parameterCode = .ok code →
        param.NewCategory cmd.category = .ok cat →
        cmd.dataType = param.DataTypeDropdown →
        repo.existsByCode code = .ok false →
        cmd.parameterName ≠ "" →
        cmd.createdBy ≠ "" →
        (∀ a b, cmd.minValue = some a → cmd.maxValue = some b → a ≤ b) →
        cmd.allowedValues = [] →
        param.CreateHandle repo cmd now =
          (.error .dropdownNoOptions, [.existsByCode code.str])) := by
  constructor
  · intro repo cmd now hdt hav
    unfold param.CreateHandle
    cases h1 : param.NewParameterCode cmd.parameterCode with
    | error e => refine ⟨?_, ?_⟩ <;> simp [h1]
    | ok code =>
      cases h2 : param.NewCategory cmd.category with
      | error e => refine ⟨?_, ?_⟩ <;> simp [h1, h2]
      | ok cat =>
        cases h3 : param.NewDataType cmd.dataType with
        | error e => refine ⟨?_, ?_⟩ <;> simp [h1, h2, h3]
        | ok dt =>
          have hdt2 : dt = param.DataTypeDropdown := by
            rw [hdt] at h3
            have hdd : param.NewDataType param.DataTypeDropdown =
                .ok param.DataTypeDropdown := by decide
            rw [hdd] at h3
            cases h3
            rfl
          cases h4 : repo.existsByCode code with
          | error e => refine ⟨?_, ?_⟩ <;> simp [h1, h2, h3, h4]
          | ok b =>
            cases b with
            | true => refine ⟨?_, ?_⟩ <;> simp [h1, h2, h3, h4]
            | false =>
              cases h5 : param.NewParameter code cmd.parameterName cat dt
                  cmd.createdBy now with
              | error e => refine ⟨?_, ?_⟩ <;> simp [h1, h2, h3, h4, h5]
              | ok p0 =>
                have hp0 : p0.dataType = param.DataTypeDropdown := by
                  unfold param.NewParameter at h5
                  split at h5
                  · cases h5
                  · split at h5
                    · cases h5
                    · cases h5
                      exact hdt2
                cases h6 : (((p0.SetUOM cmd.uomRef).SetDescription
                    cmd.description).SetMandatory
                    cmd.isMandatory).SetNumericConstraints cmd.minValue cmd.maxValue with
                | mk p2 e2 =>
                  cases e2 with
                  | some e => refine ⟨?_, ?_⟩ <;> simp [h1, h2, h3, h4, h5, h6]
                  | none =>
                    have hp2 : p2.dataType = param.DataTypeDropdown := by
                      have hpre := setNumericConstraints_dataType
                        (((p0.SetUOM cmd.uomRef).SetDescription
                          cmd.description).SetMandatory cmd.isMandatory)
                        cmd.minValue cmd.maxValue
                      rw [h6] at hpre
                      rw [hpre, setters_preserve_dataType, hp0]
                    have h7 : p2.SetAllowedValues cmd.allowedValues =
                        (p2, some .dropdownNoOptions) := by
                      rw [hav]
                      unfold param.Parameter.SetAllowedValues
                      rw [if_pos ⟨hp2, rfl⟩]
                    refine ⟨?_, ?_⟩ <;> simp [h1, h2, h3, h4, h5, h6, h7]
  · intro repo cmd now code cat h1 h2 hdt h4 hname hby hnum hav
    unfold param.CreateHandle
    have h3 : param.NewDataType cmd.dataType = .ok param.DataTypeDropdown := by
      rw [hdt]
      decide
    have h5 : param.NewParameter code cmd.parameterName cat param.DataTypeDropdown
        cmd.createdBy now =
        .ok ⟨code, cmd.parameterName, cat, param.DataTypeDropdown, none, none, none,
          [], false, none, true, now, cmd.createdBy, none, none⟩ := by
      unfold param.NewParameter
      rw [if_neg hname, if_neg hby]
    simp only [h1, h2, h3, h4, h5]
    cases hmin : cmd.minValue with
    | none =>
      simp [param.Parameter.SetUOM, param.Parameter.SetDescription,
        param.Parameter.SetMandatory, param.Parameter.SetNumericConstraints,
        param.Parameter.SetAllowedValues, hav, param.DataTypeDropdown]
    | some a =>
      cases hmax : cmd.maxValue with
      | none =>
        simp [param.Parameter.SetUOM, param.Parameter.SetDescription,
          param.Parameter.SetMandatory, param.Parameter.SetNumericConstraints,
          param.Parameter.SetAllowedValues, hav, param.DataTypeDropdown]
      | some b =>
        have hab : ¬a > b := not_lt.mpr (hnum a b hmin hmax)
        simp [param.Parameter.SetUOM, param.Parameter.SetDescription,
          param.Parameter.SetMandatory, param.Parameter.SetNumericConstraints,
          param.Parameter.SetAllowedValues, hav, hab, param.DataTypeDropdown]

/-- Claim C10 (witness): the amended theorem applied to a fresh repository
and a well-formed DROPDOWN command with an empty list: the handler fails
with `DropdownNoOptions` after the existence probe, and the trace shows
`Create` was never called. -/
theorem c10_dropdown_empty_create_path_witness :
    param.CreateHandle paramRepoFresh
        ⟨"RPM", "Spindle speed", "MACHINE", "DROPDOWN", none, none, none, [],
          false, none, "admin"⟩ 0 =
      (.error .dropdownNoOptions, [.existsByCode "RPM"]) ∧
    .create ∉ (param.CreateHandle paramRepoFresh
        ⟨"RPM", "Spindle speed", "MACHINE", "DROPDOWN", none, none, none, [],
          false, none, "admin"⟩ 0).2 :=
  ⟨(c10_dropdown_empty_create_path.2 paramRepoFresh
      ⟨"RPM", "Spindle speed", "MACHINE", "DROPDOWN", none, none, none, [],
        false, none, "admin"⟩ 0 ⟨"RPM"⟩ "MACHINE"
      (by decide) (by decide) rfl rfl (by decide) (by decide)
      (fun a b h1 h2 => by cases h1) rfl),
   (c10_dropdown_empty_create_path.1 paramRepoFresh
      ⟨"RPM", "Spindle speed", "MACHINE", "DROPDOWN", none, none, none, [],
        false, none, "admin"⟩ 0 rfl rfl).1⟩

end Costing
